import Mathlib

/-!
# Verification of the NTP FDW query-planning and temporal-filtering core

Shallow embedding of the query-planning core of the `supabase-fdw-ntp`
repository (files `src/lib.rs` and `src/query_router.rs`), together with an
executable model of the parts of the `chrono` crate that the core calls
(`NaiveDate::parse_from_str` with format `%Y-%m-%d`,
`DateTime::parse_from_rfc3339`, `DateTime::from_timestamp`, calendar-day
arithmetic and `%Y-%m-%d` formatting).

Modelling conventions:
* Rust `i64`/`i16` become `Int`; Rust truncating division `/` on `i64`
  becomes `Int.tdiv`.
* All strings handled by the core are ASCII, so Rust byte indices and byte
  lengths coincide with character indices and character counts; Rust byte
  slicing `&s[a..b]` is modelled by `rustSlice`, which returns `none`
  exactly when the slice would panic (index out of bounds).
* Fallible Rust functions returning `Result` become `Except`; a possible
  Rust panic is modelled by an outer `Option` (`none` = panic).
* The calendar model covers the proleptic Gregorian calendar with years
  0–9999 in 4-digit form, the range actually exercised by the core; the
  `chrono` year range check of `DateTime::from_timestamp` is modelled with
  the documented ±262000-year bounds.
-/

/-- Proleptic Gregorian leap-year rule (as used by `chrono`). -/
def isLeapYear (y : Int) : Bool :=
  (y % 4 == 0 && y % 100 != 0) || (y % 400 == 0)

/-- Number of days in a month of a given year. -/
def daysInMonth (y : Int) (m : Nat) : Nat :=
  match m with
  | 1 => 31 | 3 => 31 | 5 => 31 | 7 => 31 | 8 => 31 | 10 => 31 | 12 => 31
  | 4 => 30 | 6 => 30 | 9 => 30 | 11 => 30
  | 2 => if isLeapYear y then 29 else 28
  | _ => 0

/-- A calendar date (year, month, day), the model of `chrono::NaiveDate`. -/
structure Ymd where
  year : Int
  month : Nat
  day : Nat
deriving DecidableEq, Repr

/-- A (year, month, day) triple denotes a real calendar date. -/
def isValidYmd (d : Ymd) : Bool :=
  1 ≤ d.month && d.month ≤ 12 && 1 ≤ d.day && d.day ≤ daysInMonth d.year d.month

/-- Days since 1970-01-01 of a calendar date (Howard Hinnant's
`days_from_civil` algorithm, the behaviour of `chrono` date arithmetic). -/
def daysFromCivil (date : Ymd) : Int :=
  let y : Int := if date.month ≤ 2 then date.year - 1 else date.year
  let m : Int := date.month
  let d : Int := date.day
  let era : Int := y / 400
  let yoe : Int := y - era * 400
  let doy : Int := (153 * (m + (if m > 2 then -3 else 9)) + 2) / 5 + d - 1
  let doe : Int := yoe * 365 + yoe / 4 - yoe / 100 + doy
  era * 146097 + doe - 719468

/-- Calendar date of a count of days since 1970-01-01 (Howard Hinnant's
`civil_from_days` algorithm). -/
def civilFromDays (z : Int) : Ymd :=
  let z' := z + 719468
  let era : Int := z' / 146097
  let doe : Int := z' - era * 146097
  let yoe : Int := (doe - doe / 1460 + doe / 36524 - doe / 146097) / 365
  let y : Int := yoe + era * 400
  let doy : Int := doe - (365 * yoe + yoe / 4 - yoe / 100)
  let mp : Int := (5 * doy + 2) / 153
  let d : Int := doy - (153 * mp + 2) / 5 + 1
  let m : Int := if mp < 10 then mp + 3 else mp - 9
  ⟨if m ≤ 2 then y + 1 else y, m.toNat, d.toNat⟩

/-- Decimal digit character. -/
def digitChar (n : Nat) : Char :=
  Char.ofNat (48 + n % 10)

/-- Zero-padded two-digit decimal rendering (for values below 100). -/
def pad2 (n : Nat) : String :=
  ⟨[digitChar (n / 10), digitChar n]⟩

/-- `chrono` `%Y` rendering of a year: zero-padded to four digits for years
0–9999, plain digits beyond, a sign for negative years. -/
def pad4Year (y : Int) : String :=
  let body :=
    if y.natAbs ≤ 9999 then
      ⟨[digitChar (y.natAbs / 1000), digitChar (y.natAbs / 100),
        digitChar (y.natAbs / 10), digitChar y.natAbs]⟩
    else y.natAbs.repr
  if y < 0 then "-" ++ body else body

/-- `chrono` `%Y-%m-%d` formatting of a calendar date. -/
def formatYmd (d : Ymd) : String :=
  pad4Year d.year ++ "-" ++ pad2 d.month ++ "-" ++ pad2 d.day

/-- Greedily take at most `max` decimal digits off a character list,
returning the value read, the number of digits consumed and the rest. -/
def takeDigits : Nat → List Char → Nat × Nat × List Char
  | 0, cs => (0, 0, cs)
  | _ + 1, [] => (0, 0, [])
  | max + 1, c :: cs =>
    if c.isDigit then
      let (v, n, rest) := takeDigits max cs
      (digitsValue (c.toNat - 48) v n, n + 1, rest)
    else
      (0, 0, c :: cs)
where
  /-- Combine a leading digit with the value of the following digits. -/
  digitsValue (d v n : Nat) : Nat := d * 10 ^ n + v

/-- Model of `chrono::NaiveDate::parse_from_str(s, "%Y-%m-%d")`: a year of
one to four digits, a literal `-`, a month of one or two digits, a literal
`-`, a day of one or two digits, nothing trailing, and the triple must be a
real calendar date.  (`chrono` accepts non-zero-padded components, which is
what lets non-canonical date strings through validation.) -/
def parseYmd (s : String) : Option Ymd :=
  let (y, ny, rest) := takeDigits 4 s.toList
  if ny = 0 then none else
  match rest with
  | '-' :: rest =>
    let (mo, nm, rest) := takeDigits 2 rest
    if nm = 0 then none else
    match rest with
    | '-' :: rest =>
      let (d, nd, rest) := takeDigits 2 rest
      if nd = 0 then none else
      match rest with
      | [] =>
        let date : Ymd := ⟨(y : Int), mo, d⟩
        if isValidYmd date then some date else none
      | _ => none
    | _ => none
  | _ => none

/-- Take exactly `n` decimal digits off a character list. -/
def takeExactDigits (n : Nat) (cs : List Char) : Option (Nat × List Char) :=
  let (v, k, rest) := takeDigits n cs
  if k = n then some (v, rest) else none

/-- Parse the fractional-second part: a run of digits after the decimal
point, of which the first six contribute microseconds. -/
def fracMicros (cs : List Char) : Option (Nat × List Char) :=
  let digits := cs.takeWhile (·.isDigit)
  let rest := cs.dropWhile (·.isDigit)
  if digits.length = 0 then none
  else
    let firstSix := digits.take 6
    let v := firstSix.foldl (fun a c => a * 10 + (c.toNat - 48)) 0
    some (v * 10 ^ (6 - firstSix.length), rest)

/-- Parse the RFC 3339 offset part: `Z`/`z` or `±HH:MM`, as seconds. -/
def parseOffsetSecs (cs : List Char) : Option Int :=
  match cs with
  | ['Z'] => some 0
  | ['z'] => some 0
  | sign :: rest =>
    if sign = '+' ∨ sign = '-' then
      match takeExactDigits 2 rest with
      | some (oh, ':' :: rest) =>
        match takeExactDigits 2 rest with
        | some (om, []) =>
          if oh ≤ 23 && om ≤ 59 then
            let secs : Int := oh * 3600 + om * 60
            some (if sign = '-' then -secs else secs)
          else none
        | _ => none
      | _ => none
    else none
  | _ => none

/-- Model of `chrono::DateTime::parse_from_rfc3339` followed by
`.timestamp_micros()`: strict `YYYY-MM-DDTHH:MM:SS[.frac](Z|±HH:MM)` with
four-digit year, two-digit components, `T`/`t`/space as separator, and a
real calendar date; result is microseconds since the Unix epoch (UTC). -/
def parseRfc3339Micros (s : String) : Option Int := do
  let (y, rest) ← takeExactDigits 4 s.toList
  let rest ← match rest with | '-' :: r => some r | _ => none
  let (mo, rest) ← takeExactDigits 2 rest
  let rest ← match rest with | '-' :: r => some r | _ => none
  let (d, rest) ← takeExactDigits 2 rest
  let rest ← match rest with
    | 'T' :: r => some r | 't' :: r => some r | ' ' :: r => some r
    | _ => none
  let (h, rest) ← takeExactDigits 2 rest
  let rest ← match rest with | ':' :: r => some r | _ => none
  let (mi, rest) ← takeExactDigits 2 rest
  let rest ← match rest with | ':' :: r => some r | _ => none
  let (se, rest) ← takeExactDigits 2 rest
  let (frac, rest) ← match rest with
    | '.' :: r => fracMicros r
    | r => some (0, r)
  let offset ← parseOffsetSecs rest
  let date : Ymd := ⟨(y : Int), mo, d⟩
  if isValidYmd date ∧ h ≤ 23 ∧ mi ≤ 59 ∧ se ≤ 59 then
    let secs : Int := daysFromCivil date * 86400 + h * 3600 + mi * 60 + se - offset
    some (secs * 1000000 + frac)
  else none

/-! ## Model of the timestamp helpers of `src/lib.rs` -/

/-- Model of `chrono::DateTime::from_timestamp(secs, 0)` succeeding: `chrono`
accepts timestamps within about ±262000 years of the common era, modelled
here as calendar years in `[-262144, 262142]`. -/
def fromTimestampValid (secs : Int) : Bool :=
  let y := (civilFromDays (secs / 86400)).year;
  -262144 ≤ y && y ≤ 262142

/-- `micros_to_date_string` (`src/lib.rs`): convert microseconds since the
epoch to a `YYYY-MM-DD` string, failing when the timestamp is outside
`chrono`'s valid range.  Rust `i64` division truncates toward zero
(`Int.tdiv`); the UTC calendar day is the floor of seconds over 86400. -/
def micros_to_date_string (micros : Int) : Except String String :=
  let seconds := micros.tdiv 1000000
  if fromTimestampValid seconds then
    .ok (formatYmd (civilFromDays (seconds / 86400)))
  else
    .error ("Invalid timestamp: " ++ toString micros ++ " microseconds (" ++
      toString seconds ++ " seconds) is out of valid range")

/-- `add_days_to_date` (`src/lib.rs`): parse a `YYYY-MM-DD` string, add a
(possibly negative) number of days, format the result. -/
def add_days_to_date (date_str : String) (days : Int) : Except String String :=
  match parseYmd date_str with
  | none => .error "Invalid date format"
  | some date => .ok (formatYmd (civilFromDays (daysFromCivil date + days)))

/-- `parse_string_to_micros` (`src/lib.rs`): try a full RFC 3339 timestamp
first, then a date-only `YYYY-MM-DD` string taken as midnight UTC. -/
def parse_string_to_micros (s : String) : Option Int :=
  match parseRfc3339Micros s with
  | some m => some m
  | none =>
    match parseYmd s with
    | some date => some (daysFromCivil date * 86400 * 1000000)
    | none => none

/-- `extract_date_component` (`src/lib.rs`): a 10-character string is already
date-only; otherwise keep what precedes the first `T`
(`s.split('T').next().unwrap_or(s)`). -/
def extract_date_component (s : String) : String :=
  if s.length = 10 then s
  else ⟨s.toList.takeWhile (· ≠ 'T')⟩

/-! ## Model of the qualifier extractor `parse_quals` (`src/lib.rs`) -/

/-- The two `Value::Cell` shapes the extractor inspects; every other
`Value`/`Cell` variant falls into `otherVal` and is uniformly ignored. -/
inductive QualValue where
  | stringVal (s : String)
  | timestamptzVal (micros : Int)
  | otherVal
deriving DecidableEq, Repr

/-- One predicate triple handed to the extractor by the scan driver. -/
structure Qual where
  field : String
  operator : String
  value : QualValue
deriving DecidableEq, Repr

/-- `DateRange` (`src/query_router.rs`); the source field `end` is spelled
`endDate` because `end` is a Lean keyword. -/
structure DateRange where
  start : String
  endDate : String
deriving DecidableEq, Repr

/-- `TimestampBounds` (`src/query_router.rs`); the source field `end` is
spelled `endTs`. -/
structure TimestampBounds where
  start : Option Int
  start_operator : Option String
  endTs : Option Int
  end_operator : Option String
deriving DecidableEq, Repr

/-- `QualFilters` (`src/query_router.rs`). -/
structure QualFilters where
  product_type : Option String
  data_category : Option String
  price_type : Option String
  timestamp_range : Option DateRange
  timestamp_bounds : Option TimestampBounds
  table_name : String
deriving DecidableEq, Repr

/-- The local mutable state accumulated by the qualifier loop of
`parse_quals` (`src/lib.rs` lines 221–231). -/
structure QualAccum where
  product_type : Option String := none
  data_category : Option String := none
  price_type : Option String := none
  timestamp_start : Option String := none
  timestamp_end : Option String := none
  ts_bound_start : Option Int := none
  ts_bound_start_op : Option String := none
  ts_bound_end : Option Int := none
  ts_bound_end_op : Option String := none
deriving DecidableEq, Repr

/-- One iteration of the qualifier loop of `parse_quals`
(`src/lib.rs` lines 234–340). -/
def processQual (acc : QualAccum) (qual : Qual) : Except String QualAccum :=
  match qual.field with
  | "product_type" =>
    if qual.operator = "=" then
      match qual.value with
      | .stringVal val => .ok { acc with product_type := some val }
      | _ => .ok acc
    else .ok acc
  | "data_category" =>
    if qual.operator = "=" then
      match qual.value with
      | .stringVal val => .ok { acc with data_category := some val }
      | _ => .ok acc
    else .ok acc
  | "price_type" =>
    if qual.operator = "=" then
      match qual.value with
      | .stringVal val => .ok { acc with price_type := some val }
      | _ => .ok acc
    else .ok acc
  | "timestamp_utc" =>
    match qual.value with
    | .timestamptzVal micros =>
      match micros_to_date_string micros with
      | .error e => .error ("Failed to parse timestamp_utc: " ++ e)
      | .ok date_str =>
        match qual.operator with
        | ">=" | ">" =>
          .ok { acc with timestamp_start := some date_str,
                         ts_bound_start := some micros,
                         ts_bound_start_op := some qual.operator }
        | "<" | "<=" =>
          .ok { acc with timestamp_end := some date_str,
                         ts_bound_end := some micros,
                         ts_bound_end_op := some qual.operator }
        | "=" =>
          .ok { acc with timestamp_start := some date_str,
                         timestamp_end := some date_str,
                         ts_bound_start := some micros,
                         ts_bound_start_op := some ">=",
                         ts_bound_end := some micros,
                         ts_bound_end_op := some "<=" }
        | _ => .ok acc
    | .stringVal date_str =>
      let date_only := extract_date_component date_str
      match qual.operator with
      | ">=" | ">" =>
        .ok (match parse_string_to_micros date_str with
          | some micros =>
            { acc with timestamp_start := some date_only,
                       ts_bound_start := some micros,
                       ts_bound_start_op := some qual.operator }
          | none => { acc with timestamp_start := some date_only })
      | "<" | "<=" =>
        .ok (match parse_string_to_micros date_str with
          | some micros =>
            { acc with timestamp_end := some date_only,
                       ts_bound_end := some micros,
                       ts_bound_end_op := some qual.operator }
          | none => { acc with timestamp_end := some date_only })
      | "=" =>
        .ok (match parse_string_to_micros date_str with
          | some micros =>
            { acc with timestamp_start := some date_only,
                       timestamp_end := some date_only,
                       ts_bound_start := some micros,
                       ts_bound_start_op := some ">=",
                       ts_bound_end := some micros,
                       ts_bound_end_op := some "<=" }
          | none => { acc with timestamp_start := some date_only,
                               timestamp_end := some date_only })
      | _ => .ok acc
    | .otherVal => .ok acc
  | _ => .ok acc

/-- The qualifier loop of `parse_quals` from an intermediate accumulator
state: process the remaining triples in order, stopping at the first
error. -/
def extractQualsFrom (acc : QualAccum) : List Qual → Except String QualAccum
  | [] => .ok acc
  | qual :: rest =>
    match processQual acc qual with
    | .error e => .error e
    | .ok acc2 => extractQualsFrom acc2 rest

/-- The whole qualifier loop of `parse_quals`. -/
def extractQuals (quals : List Qual) : Except String QualAccum :=
  extractQualsFrom {} quals

/-- The date-range resolution step of `parse_quals`
(`src/lib.rs` lines 343–381). -/
def buildTimestampRange (acc : QualAccum) : Except String (Option DateRange) :=
  match acc.timestamp_start, acc.timestamp_end with
  | some start, some «end» =>
    let has_time_bounds := acc.ts_bound_start.isSome || acc.ts_bound_end.isSome
    if start = «end» then
      match add_days_to_date «end» 1 with
      | .error e => .error e
      | .ok adjusted => .ok (some ⟨start, adjusted⟩)
    else if has_time_bounds then
      match add_days_to_date «end» 1 with
      | .error e => .error e
      | .ok adjusted => .ok (some ⟨start, adjusted⟩)
    else
      .ok (some ⟨start, «end»⟩)
  | some start, none =>
    match add_days_to_date start 7 with
    | .error e => .error e
    | .ok «end» => .ok (some ⟨start, «end»⟩)
  | none, some «end» =>
    match add_days_to_date «end» (-7) with
    | .error e => .error e
    | .ok start => .ok (some ⟨start, «end»⟩)
  | none, none => .ok none

/-- The timestamp-bounds assembly step of `parse_quals`
(`src/lib.rs` lines 384–404). -/
def buildTimestampBounds (acc : QualAccum) : Option TimestampBounds :=
  match acc.ts_bound_start, acc.ts_bound_end with
  | some start, some «end» =>
    some ⟨some start, acc.ts_bound_start_op, some «end», acc.ts_bound_end_op⟩
  | some start, none => some ⟨some start, acc.ts_bound_start_op, none, none⟩
  | none, some «end» => some ⟨none, none, some «end», acc.ts_bound_end_op⟩
  | none, none => none

/-- `parse_quals` (`src/lib.rs` lines 217–414); the table name detected from
the scan context is passed in directly. -/
def parse_quals (quals : List Qual) (table_name : String) :
    Except String QualFilters :=
  match extractQuals quals with
  | .error e => .error e
  | .ok acc =>
    match buildTimestampRange acc with
    | .error e => .error e
    | .ok timestamp_range =>
      .ok { product_type := acc.product_type
            data_category := acc.data_category
            price_type := acc.price_type
            timestamp_range := timestamp_range
            timestamp_bounds := buildTimestampBounds acc
            table_name := table_name }

/-! ## Model of `src/query_router.rs` -/

/-- The `ApiError` variant raised by the router (`src/error.rs`). -/
inductive ApiError where
  | httpError (status : Nat) (body : String)
deriving DecidableEq, Repr

/-- `NtpFdwError` (`src/error.rs`), restricted to the variants the router
produces: `Api` (via `From<ApiError>`) and `Generic`. -/
inductive NtpFdwError where
  | api (e : ApiError)
  | generic (msg : String)
deriving DecidableEq, Repr

/-- Decidable equality for `Except`, defined structurally so that the
embedding evaluates at concrete inputs by `decide`. -/
instance {e a : Type} [DecidableEq e] [DecidableEq a] : DecidableEq (Except e a) := fun x y =>
  match x, y with
  | .error u, .error v =>
    match decEq u v with
    | isTrue h => isTrue (by rw [h])
    | isFalse h => isFalse (by intro hc; cases hc; exact h rfl)
  | .ok u, .ok v =>
    match decEq u v with
    | isTrue h => isTrue (by rw [h])
    | isFalse h => isFalse (by intro hc; cases hc; exact h rfl)
  | .error _, .ok _ => isFalse (by intro hc; cases hc)
  | .ok _, .error _ => isFalse (by intro hc; cases hc)

/-- `QueryPlan` (`src/query_router.rs`). -/
structure QueryPlan where
  endpoint : String
  product : Option String
  date_from : String
  date_to : String
  api_url : String
deriving DecidableEq, Repr

/-- Rust byte slicing `&s[a..b]` on an ASCII string: `none` models the
panic on an out-of-bounds index. -/
def rustSlice (s : String) (a b : Nat) : Option String :=
  if a ≤ b ∧ b ≤ s.length then some ⟨(s.toList.drop a).take (b - a)⟩
  else none

/-- Rust `str::trim_end_matches('/')`. -/
def trimEndSlashes (s : String) : String :=
  ⟨(s.toList.reverse.dropWhile (· = '/')).reverse⟩

/-- `build_api_url` (`src/query_router.rs` lines 223–259).  The outer
`Option` is `none` exactly when the byte slicing on `date_from`/`date_to`
for the two special endpoints would panic. -/
def build_api_url (base_url : String) (endpoint : String)
    (product : Option String) (date_from date_to : String) : Option String :=
  let base := trimEndSlashes base_url
  if endpoint = "Jahresmarktpraemie" then
    match rustSlice date_from 0 4 with
    | none => none
    | some year => some (base ++ "/" ++ endpoint ++ "/" ++ year)
  else if endpoint = "marktpraemie" then
    match rustSlice date_from 5 7, rustSlice date_from 0 4,
          rustSlice date_to 5 7, rustSlice date_to 0 4 with
    | some month_from, some year_from, some month_to, some year_to =>
      some (base ++ "/" ++ endpoint ++ "/" ++ month_from ++ "/" ++ year_from ++
        "/" ++ month_to ++ "/" ++ year_to)
    | _, _, _, _ => none
  else
    match product with
    | some prod => some (base ++ "/" ++ endpoint ++ "/" ++ prod ++ "/" ++
        date_from ++ "/" ++ date_to)
    | none => some (base ++ "/" ++ endpoint ++ "/" ++ date_from ++ "/" ++ date_to)

/-- Chronological order on valid calendar dates, as `chrono::NaiveDate`'s
`Ord`: lexicographic on (year, month, day). -/
def ymdLe (a b : Ymd) : Bool :=
  a.year < b.year ||
  (a.year = b.year &&
    (a.month < b.month || (a.month = b.month && a.day ≤ b.day)))

/-- `validate_date_range` (`src/query_router.rs` lines 291–323). -/
def validate_date_range (date_from date_to : String) :
    Except NtpFdwError Unit :=
  match parseYmd date_from with
  | none => .error (.api (.httpError 400
      ("Invalid date format for date_from: \x27" ++ date_from ++ "\x27. Expected YYYY-MM-DD.")))
  | some «from» =>
    match parseYmd date_to with
    | none => .error (.api (.httpError 400
        ("Invalid date format for date_to: \x27" ++ date_to ++ "\x27. Expected YYYY-MM-DD.")))
    | some «to» =>
      if ¬ ymdLe «from» «to» then
        .error (.api (.httpError 400
          ("Invalid date range: date_from (" ++ date_from ++ ") must be <= date_to (" ++
            date_to ++ ")")))
      else .ok ()

/-- `extract_date_range` (`src/query_router.rs` lines 351–363). -/
def extract_date_range (timestamp_range : Option DateRange) : DateRange :=
  match timestamp_range with
  | some range => range
  | none => ⟨"2024-10-18", "2024-10-25"⟩

/-- `map_product_to_api` (`src/query_router.rs` lines 538–564). -/
def map_product_to_api (product_type category : String) :
    Except NtpFdwError (List String) :=
  match product_type, category with
  | "solar", _ => .ok ["Solar"]
  | "wind_onshore", "forecast" => .ok ["Wind"]
  | "wind_onshore", "extrapolation" => .ok ["Wind"]
  | "wind_onshore", "online_actual" => .ok ["Windonshore"]
  | "wind_offshore", "online_actual" => .ok ["Windoffshore"]
  | "wind_offshore", "forecast" => .ok []
  | "wind_offshore", "extrapolation" => .ok []
  | _, _ => .error (.generic
      ("Unknown product type: \x27" ++ product_type ++
        "\x27. Expected \x27solar\x27, \x27wind_onshore\x27, or \x27wind_offshore\x27."))

/-- `map_category_to_endpoint` (`src/query_router.rs` lines 584–594). -/
def map_category_to_endpoint (category : String) :
    Except NtpFdwError String :=
  match category with
  | "forecast" => .ok "prognose"
  | "extrapolation" => .ok "hochrechnung"
  | "online_actual" => .ok "onlinehochrechnung"
  | _ => .error (.generic
      ("Unknown data category: \x27" ++ category ++
        "\x27. Expected \x27forecast\x27, \x27extrapolation\x27, or \x27online_actual\x27."))

/-- `map_price_type_to_endpoint` (`src/query_router.rs` lines 694–705). -/
def map_price_type_to_endpoint (price_type : String) :
    Except NtpFdwError String :=
  match price_type with
  | "spot_market" => .ok "Spotmarktpreise"
  | "market_premium" => .ok "marktpraemie"
  | "annual_market_value" => .ok "Jahresmarktpraemie"
  | "negative_flag" => .ok "NegativePreise"
  | _ => .error (.generic
      ("Unknown price type: \x27" ++ price_type ++
        "\x27. Expected \x27spot_market\x27, \x27market_premium\x27, \x27annual_market_value\x27, or \x27negative_flag\x27."))

/-- Build the plans of one `(product, category)` combination of the
renewable loop body (`src/query_router.rs` lines 480–505). -/
def renewableCombo (dr : DateRange) (base_url product_type category : String) :
    Option (Except NtpFdwError (List QueryPlan)) :=
  match map_product_to_api product_type category with
  | .error e => some (.error e)
  | .ok api_products =>
    match map_category_to_endpoint category with
    | .error e => some (.error e)
    | .ok api_endpoint =>
      (api_products.mapM (fun api_product =>
        (build_api_url base_url api_endpoint (some api_product)
            dr.start dr.endDate).map (fun api_url =>
          { endpoint := api_endpoint
            product := some api_product
            date_from := dr.start
            date_to := dr.endDate
            api_url := api_url : QueryPlan }))).map .ok

/-- The nested product × category loop of `route_renewable`, in declaration
order, stopping at the first error (the Rust `?`) or panic. -/
def renewableLoop (dr : DateRange) (base_url : String) :
    List (String × String) → Option (Except NtpFdwError (List QueryPlan))
  | [] => some (.ok [])
  | (product_type, category) :: rest =>
    match renewableCombo dr base_url product_type category with
    | none => none
    | some (.error e) => some (.error e)
    | some (.ok plans) =>
      match renewableLoop dr base_url rest with
      | none => none
      | some (.error e) => some (.error e)
      | some (.ok more) => some (.ok (plans ++ more))

/-- The Cartesian product of two lists in nested-loop order. -/
def pairsOf (products categories : List String) : List (String × String) :=
  match products with
  | [] => []
  | p :: rest => categories.map (fun c => (p, c)) ++ pairsOf rest categories

/-- `route_renewable` (`src/query_router.rs` lines 455–509). -/
def route_renewable (filters : QualFilters) (base_url : String) :
    Option (Except NtpFdwError (List QueryPlan)) :=
  let date_range := extract_date_range filters.timestamp_range
  match validate_date_range date_range.start date_range.endDate with
  | .error e => some (.error e)
  | .ok _ =>
    let products := match filters.product_type with
      | some product_type => [product_type]
      | none => ["solar", "wind_onshore", "wind_offshore"]
    let categories := match filters.data_category with
      | some category => [category]
      | none => ["forecast", "extrapolation", "online_actual"]
    renewableLoop date_range base_url (pairsOf products categories)

/-- The endpoint loop of `route_prices` (`src/query_router.rs` lines
654–671). -/
def pricesLoop (dr : DateRange) (base_url : String) :
    List String → Option (List QueryPlan)
  | [] => some []
  | endpoint :: rest =>
    match build_api_url base_url endpoint none dr.start dr.endDate with
    | none => none
    | some api_url =>
      match pricesLoop dr base_url rest with
      | none => none
      | some more =>
        some ({ endpoint := endpoint, product := none, date_from := dr.start,
                date_to := dr.endDate, api_url := api_url : QueryPlan } :: more)

/-- `route_prices` (`src/query_router.rs` lines 634–673). -/
def route_prices (filters : QualFilters) (base_url : String) :
    Option (Except NtpFdwError (List QueryPlan)) :=
  let date_range := extract_date_range filters.timestamp_range
  match validate_date_range date_range.start date_range.endDate with
  | .error e => some (.error e)
  | .ok _ =>
    match filters.price_type with
    | some price_type =>
      match map_price_type_to_endpoint price_type with
      | .error e => some (.error e)
      | .ok endpoint =>
        (pricesLoop date_range base_url [endpoint]).map .ok
    | none =>
      (pricesLoop date_range base_url
        ["Spotmarktpreise", "NegativePreise", "marktpraemie",
         "Jahresmarktpraemie"]).map .ok

/-- `route_grid_status` (`src/query_router.rs` lines 749–775). -/
def route_grid_status (filters : QualFilters) (base_url : String) :
    Option (Except NtpFdwError (List QueryPlan)) :=
  let date_range := extract_date_range filters.timestamp_range
  match validate_date_range date_range.start date_range.endDate with
  | .error e => some (.error e)
  | .ok _ =>
    match build_api_url base_url "TrafficLight" none
        date_range.start date_range.endDate with
    | none => none
    | some api_url =>
      some (.ok [{ endpoint := "TrafficLight", product := none,
                   date_from := date_range.start,
                   date_to := date_range.endDate, api_url := api_url }])

/-- `route_redispatch` (`src/query_router.rs` lines 798–826). -/
def route_redispatch (filters : QualFilters) (base_url : String) :
    Option (Except NtpFdwError (List QueryPlan)) :=
  let date_range := extract_date_range filters.timestamp_range
  match validate_date_range date_range.start date_range.endDate with
  | .error e => some (.error e)
  | .ok _ =>
    match build_api_url base_url "redispatch" none
        date_range.start date_range.endDate with
    | none => none
    | some api_url =>
      some (.ok [{ endpoint := "redispatch", product := none,
                   date_from := date_range.start,
                   date_to := date_range.endDate, api_url := api_url }])

/-- `route_query` (`src/query_router.rs` lines 402–413). -/
def route_query (filters : QualFilters) (base_url : String) :
    Option (Except NtpFdwError (List QueryPlan)) :=
  match filters.table_name with
  | "renewable_energy_timeseries" => route_renewable filters base_url
  | "electricity_market_prices" => route_prices filters base_url
  | "redispatch_events" => route_redispatch filters base_url
  | "grid_status_timeseries" => route_grid_status filters base_url
  | _ => some (.error (.generic
      ("Unknown table: " ++ filters.table_name ++
        ". Expected one of: renewable_energy_timeseries, electricity_market_prices, redispatch_events, grid_status_timeseries.")))

/-! ## Model of the row filter (`src/lib.rs`) -/

/-- `RenewableRow` (`src/types.rs`): one parsed row of the renewable-energy
table; the four TSO megawatt readings are carried as opaque payload. -/
structure RenewableRow where
  timestamp_utc : String
  interval_end_utc : String
  interval_minutes : Int
  product_type : String
  data_category : String
  tso_50hertz_mw : Option Float
  tso_amprion_mw : Option Float
  tso_tennet_mw : Option Float
  tso_transnetbw_mw : Option Float
  source_endpoint : String

/-- `matches_timestamp_bounds` (`src/lib.rs` lines 542–578). -/
def matches_timestamp_bounds (timestamp_str : String)
    (bounds : TimestampBounds) : Bool :=
  match parseRfc3339Micros timestamp_str with
  | none => false
  | some row_timestamp_micros =>
    let matches_start :=
      match bounds.start with
      | none => true
      | some start_micros =>
        match bounds.start_operator with
        | some ">=" => row_timestamp_micros ≥ start_micros
        | some ">" => row_timestamp_micros > start_micros
        | some "=" => row_timestamp_micros = start_micros
        | _ => true
    if matches_start = false then false
    else
      match bounds.endTs with
      | none => true
      | some end_micros =>
        match bounds.end_operator with
        | some "<" => row_timestamp_micros < end_micros
        | some "<=" => row_timestamp_micros ≤ end_micros
        | some "=" => row_timestamp_micros = end_micros
        | _ => true

/-- `filter_renewable_rows` (`src/lib.rs` lines 581–592). -/
def filter_renewable_rows (rows : List RenewableRow)
    (bounds : Option TimestampBounds) : List RenewableRow :=
  match bounds with
  | some bounds => rows.filter (fun row =>
      matches_timestamp_bounds row.timestamp_utc bounds)
  | none => rows

/-! ## Specification-side predicates used by the theorems -/

/-- The claim's reading of a recorded lower-bound operator; an operator the
code does not recognise on that side does not filter. -/
def lowerOpHolds (op : String) (t bound : Int) : Prop :=
  if op = ">=" then t ≥ bound
  else if op = ">" then t > bound
  else if op = "=" then t = bound
  else True

/-- The claim's reading of a recorded upper-bound operator. -/
def upperOpHolds (op : String) (t bound : Int) : Prop :=
  if op = "<" then t < bound
  else if op = "<=" then t ≤ bound
  else if op = "=" then t = bound
  else True

/-- An instant satisfies every bound present in a `TimestampBounds` record
under that bound's recorded operator. -/
def boundsHold (b : TimestampBounds) (t : Int) : Prop :=
  (match b.start, b.start_operator with
   | some s, some op => lowerOpHolds op t s
   | _, _ => True) ∧
  (match b.endTs, b.end_operator with
   | some e, some op => upperOpHolds op t e
   | _, _ => True)

/-- The lower-bound test of `matches_timestamp_bounds`, as a function of
the bound fields. -/
def lowerCheck (bs : Option Int) (bso : Option String) (t : Int) : Bool :=
  match bs with
  | none => true
  | some s =>
    match bso with
    | some ">=" => t ≥ s
    | some ">" => t > s
    | some "=" => t = s
    | _ => true

/-- The upper-bound test of `matches_timestamp_bounds`. -/
def upperCheck (be : Option Int) (beo : Option String) (t : Int) : Bool :=
  match be with
  | none => true
  | some e =>
    match beo with
    | some "<" => t < e
    | some "<=" => t ≤ e
    | some "=" => t = e
    | _ => true

/-- A qualifier triple that makes the extraction loop fail: a
`timestamp_utc` filter whose `Timestamptz` value is outside `chrono`'s
representable range. -/
def badTimestamptz (q : Qual) : Prop :=
  q.field = "timestamp_utc" ∧
  ∃ m, q.value = .timestamptzVal m ∧ (micros_to_date_string m).isOk = false

/-- The spec's `UnknownCategory`/`UnknownValue` error taxonomy: the
`Generic` errors whose message reports an unknown value or table. -/
def unknownErrorShape (e : NtpFdwError) : Prop := ∃ s,
  e = .generic ("Unknown product type: \x27" ++ s ++
    "\x27. Expected \x27solar\x27, \x27wind_onshore\x27, or \x27wind_offshore\x27.") ∨
  e = .generic ("Unknown data category: \x27" ++ s ++
    "\x27. Expected \x27forecast\x27, \x27extrapolation\x27, or \x27online_actual\x27.") ∨
  e = .generic ("Unknown price type: \x27" ++ s ++
    "\x27. Expected \x27spot_market\x27, \x27market_premium\x27, \x27annual_market_value\x27, or \x27negative_flag\x27.") ∨
  e = .generic ("Unknown table: " ++ s ++
    ". Expected one of: renewable_energy_timeseries, electricity_market_prices, redispatch_events, grid_status_timeseries.")

/-! ## Helper lemmas -/

/-- A successful `parse_quals` run decomposes into a successful extraction
and a successful date-range resolution. -/
theorem parse_quals_ok_pieces {quals : List Qual} {t : String} {acc : QualAccum}
    {f : QualFilters} (h1 : extractQuals quals = .ok acc)
    (h2 : parse_quals quals t = .ok f) :
    buildTimestampRange acc = .ok f.timestamp_range ∧
    f.product_type = acc.product_type ∧ f.data_category = acc.data_category ∧
    f.price_type = acc.price_type ∧
    f.timestamp_bounds = buildTimestampBounds acc ∧ f.table_name = t := by
  unfold parse_quals at h2
  rw [h1] at h2
  dsimp only at h2
  cases hb : buildTimestampRange acc with
  | error e => rw [hb] at h2; cases h2
  | ok r =>
    rw [hb] at h2
    cases h2
    simp

/-- Successful `add_days_to_date` output described by the calendar model. -/
theorem add_days_to_date_ok {s r : String} {k : Int}
    (h : add_days_to_date s k = .ok r) :
    ∃ d, parseYmd s = some d ∧ r = formatYmd (civilFromDays (daysFromCivil d + k)) := by
  unfold add_days_to_date at h
  cases hp : parseYmd s with
  | none => rw [hp] at h; cases h
  | some d =>
    rw [hp] at h
    simp only [Except.ok.injEq] at h
    exact ⟨d, rfl, h.symm⟩

/-- `processQual` fails exactly on a bad `Timestamptz` triple. -/
theorem processQual_error_iff (acc : QualAccum) (q : Qual) :
    (processQual acc q).isOk = false ↔ badTimestamptz q := by
  unfold processQual badTimestamptz
  split <;> (repeat' split) <;> simp_all [Except.isOk, Except.toBool]

/-- The extraction loop fails iff some triple is a bad `Timestamptz`
filter; malformed string literals never fail extraction. -/
theorem extractQualsFrom_error_iff (quals : List Qual) (acc : QualAccum) :
    (extractQualsFrom acc quals).isOk = false ↔ ∃ q ∈ quals, badTimestamptz q := by
  induction quals generalizing acc with
  | nil => simp [extractQualsFrom, Except.isOk, Except.toBool]
  | cons q rest ih =>
    unfold extractQualsFrom
    cases hp : processQual acc q with
    | error e =>
      have hbad : badTimestamptz q := by
        rw [← processQual_error_iff acc q, hp]; rfl
      simp [Except.isOk, Except.toBool, hbad]
    | ok acc2 =>
      have hgood : ¬ badTimestamptz q := by
        rw [← processQual_error_iff acc q, hp]; simp [Except.isOk, Except.toBool]
      simp [ih acc2, hgood]

/-- A failing date-range resolution always traces back to an extracted
endpoint string that does not parse as a date. -/
theorem buildTimestampRange_error (acc : QualAccum)
    (h : (buildTimestampRange acc).isOk = false) :
    ∃ s, (acc.timestamp_start = some s ∨ acc.timestamp_end = some s) ∧
      parseYmd s = none := by
  unfold buildTimestampRange at h
  cases hs : acc.timestamp_start with
  | some s =>
    cases he : acc.timestamp_end with
    | some e =>
      rw [hs, he] at h
      dsimp only at h
      by_cases hse : s = e
      · rw [if_pos hse] at h
        cases ha : add_days_to_date e 1 with
        | ok r => rw [ha] at h; cases h
        | error e2 =>
          refine ⟨e, Or.inr rfl, ?_⟩
          unfold add_days_to_date at ha
          cases hp : parseYmd e with
          | none => rfl
          | some d => rw [hp] at ha; cases ha
      · rw [if_neg hse] at h
        by_cases hbs : (acc.ts_bound_start.isSome || acc.ts_bound_end.isSome) = true
        · rw [if_pos hbs] at h
          cases ha : add_days_to_date e 1 with
          | ok r => rw [ha] at h; cases h
          | error e2 =>
            refine ⟨e, Or.inr rfl, ?_⟩
            unfold add_days_to_date at ha
            cases hp : parseYmd e with
            | none => rfl
            | some d => rw [hp] at ha; cases ha
        · rw [if_neg hbs] at h
          cases h
    | none =>
      rw [hs, he] at h
      dsimp only at h
      cases ha : add_days_to_date s 7 with
      | ok r => rw [ha] at h; cases h
      | error e2 =>
        refine ⟨s, Or.inl rfl, ?_⟩
        unfold add_days_to_date at ha
        cases hp : parseYmd s with
        | none => rfl
        | some d => rw [hp] at ha; cases ha
  | none =>
    cases he : acc.timestamp_end with
    | some e =>
      rw [hs, he] at h
      dsimp only at h
      cases ha : add_days_to_date e (-7) with
      | ok r => rw [ha] at h; cases h
      | error e2 =>
        refine ⟨e, Or.inr rfl, ?_⟩
        unfold add_days_to_date at ha
        cases hp : parseYmd e with
        | none => rfl
        | some d => rw [hp] at ha; cases ha
    | none =>
      rw [hs, he] at h
      cases h

/-- `matches_timestamp_bounds` is the conjunction of the two bound tests
after a successful parse. -/
theorem matches_timestamp_bounds_eq (ts : String) (b : TimestampBounds) :
    matches_timestamp_bounds ts b =
      match parseRfc3339Micros ts with
      | none => false
      | some t => lowerCheck b.start b.start_operator t &&
          upperCheck b.endTs b.end_operator t := by
  unfold matches_timestamp_bounds lowerCheck upperCheck
  cases parseRfc3339Micros ts with
  | none => rfl
  | some t =>
    dsimp only
    split
    · rename_i h
      simp only [h, Bool.false_and]
    · rename_i h
      simp only [Bool.not_eq_false] at h
      simp only [h, Bool.true_and]

/-- The lower-bound test holds iff the claim's lower-bound predicate does. -/
theorem lowerCheck_iff (bs : Option Int) (bso : Option String) (t : Int) :
    lowerCheck bs bso t = true ↔
      (match bs, bso with
       | some s, some op => lowerOpHolds op t s
       | _, _ => True) := by
  cases bs with
  | none => simp [lowerCheck]
  | some s =>
    cases bso with
    | none => simp [lowerCheck]
    | some op =>
      unfold lowerCheck lowerOpHolds
      dsimp only
      by_cases h1 : op = ">="
      · subst h1; simp [ge_iff_le]
      · by_cases h2 : op = ">"
        · subst h2; simp
        · by_cases h3 : op = "="
          · subst h3; simp
          · rw [if_neg h1, if_neg h2, if_neg h3]
            simp only [iff_true]
            split <;> simp_all

/-- The upper-bound test holds iff the claim's upper-bound predicate does. -/
theorem upperCheck_iff (be : Option Int) (beo : Option String) (t : Int) :
    upperCheck be beo t = true ↔
      (match be, beo with
       | some e, some op => upperOpHolds op t e
       | _, _ => True) := by
  cases be with
  | none => simp [upperCheck]
  | some e =>
    cases beo with
    | none => simp [upperCheck]
    | some op =>
      unfold upperCheck upperOpHolds
      dsimp only
      by_cases h1 : op = "<"
      · subst h1; simp
      · by_cases h2 : op = "<="
        · subst h2; simp
        · by_cases h3 : op = "="
          · subst h3; simp
          · rw [if_neg h1, if_neg h2, if_neg h3]
            simp only [iff_true]
            split <;> simp_all

/-- `matches_timestamp_bounds` keeps a timestamp iff it parses to an
instant satisfying every present bound. -/
theorem matches_timestamp_bounds_iff (ts : String) (b : TimestampBounds) :
    matches_timestamp_bounds ts b = true ↔
      ∃ t, parseRfc3339Micros ts = some t ∧ boundsHold b t := by
  rw [matches_timestamp_bounds_eq]
  cases hp : parseRfc3339Micros ts with
  | none => simp
  | some t =>
    dsimp only
    rw [Bool.and_eq_true, lowerCheck_iff, upperCheck_iff]
    unfold boundsHold
    constructor
    · intro h
      exact ⟨t, rfl, h.1, h.2⟩
    · rintro ⟨t2, ht2, h1, h2⟩
      cases ht2
      exact ⟨h1, h2⟩

/-- Unknown product values map to an unknown-value error for every
category. -/
theorem map_product_to_api_unknown (v c : String) (h1 : v ≠ "solar")
    (h2 : v ≠ "wind_onshore") (h3 : v ≠ "wind_offshore") :
    map_product_to_api v c = .error (.generic ("Unknown product type: \x27" ++ v ++
      "\x27. Expected \x27solar\x27, \x27wind_onshore\x27, or \x27wind_offshore\x27.")) := by
  unfold map_product_to_api
  split <;> simp_all

/-- Unknown categories map to an unknown-value error. -/
theorem map_category_to_endpoint_unknown (c : String) (h1 : c ≠ "forecast")
    (h2 : c ≠ "extrapolation") (h3 : c ≠ "online_actual") :
    map_category_to_endpoint c = .error (.generic ("Unknown data category: \x27" ++ c ++
      "\x27. Expected \x27forecast\x27, \x27extrapolation\x27, or \x27online_actual\x27.")) := by
  unfold map_category_to_endpoint
  split <;> simp_all

/-- Unknown price types map to an unknown-value error. -/
theorem map_price_type_to_endpoint_unknown (v : String) (h1 : v ≠ "spot_market")
    (h2 : v ≠ "market_premium") (h3 : v ≠ "annual_market_value")
    (h4 : v ≠ "negative_flag") :
    map_price_type_to_endpoint v = .error (.generic ("Unknown price type: \x27" ++ v ++
      "\x27. Expected \x27spot_market\x27, \x27market_premium\x27, \x27annual_market_value\x27, or \x27negative_flag\x27.")) := by
  unfold map_price_type_to_endpoint
  split <;> simp_all

/-- With an unknown data category, the first combination of the renewable
loop already fails with an unknown-value error, whatever the product is. -/
theorem renewableCombo_unknown_category (dr : DateRange) (base p c : String)
    (hc1 : c ≠ "forecast") (hc2 : c ≠ "extrapolation") (hc3 : c ≠ "online_actual") :
    ∃ e, renewableCombo dr base p c = some (.error e) ∧ unknownErrorShape e := by
  unfold renewableCombo
  by_cases hp1 : p = "solar"
  · subst hp1
    rw [show map_product_to_api "solar" c = .ok ["Solar"] from rfl]
    rw [map_category_to_endpoint_unknown c hc1 hc2 hc3]
    exact ⟨_, rfl, ⟨c, Or.inr (Or.inl rfl)⟩⟩
  · by_cases hp2 : p = "wind_onshore"
    · subst hp2
      rw [show map_product_to_api "wind_onshore" c =
        .error (.generic ("Unknown product type: \x27" ++ "wind_onshore" ++
          "\x27. Expected \x27solar\x27, \x27wind_onshore\x27, or \x27wind_offshore\x27."))
        from by unfold map_product_to_api; split <;> simp_all]
      exact ⟨_, rfl, ⟨"wind_onshore", Or.inl rfl⟩⟩
    · by_cases hp3 : p = "wind_offshore"
      · subst hp3
        rw [show map_product_to_api "wind_offshore" c =
          .error (.generic ("Unknown product type: \x27" ++ "wind_offshore" ++
            "\x27. Expected \x27solar\x27, \x27wind_onshore\x27, or \x27wind_offshore\x27."))
          from by unfold map_product_to_api; split <;> simp_all]
        exact ⟨_, rfl, ⟨"wind_offshore", Or.inl rfl⟩⟩
      · rw [map_product_to_api_unknown p c hp1 hp2 hp3]
        exact ⟨_, rfl, ⟨p, Or.inl rfl⟩⟩

/-- `route_query` dispatches the renewable table to `route_renewable`. -/
theorem route_query_renewable (f : QualFilters) (base : String)
    (h : f.table_name = "renewable_energy_timeseries") :
    route_query f base = route_renewable f base := by
  unfold route_query
  rw [h]
  rfl

/-- `route_query` dispatches the prices table to `route_prices`. -/
theorem route_query_prices (f : QualFilters) (base : String)
    (h : f.table_name = "electricity_market_prices") :
    route_query f base = route_prices f base := by
  unfold route_query
  rw [h]
  rfl

/-- Chronological order on dates is reflexive. -/
theorem ymdLe_refl (d : Ymd) : ymdLe d d = true := by
  simp [ymdLe]

/-- A slice of a string with a known character list. -/
theorem rustSlice_of_toList {s : String} {l : List Char} (h : s.toList = l)
    (a b : Nat) (hab : a ≤ b) (hb : b ≤ l.length) :
    rustSlice s a b = some ⟨(l.drop a).take (b - a)⟩ := by
  unfold rustSlice
  have hlen : s.length = l.length := by
    rw [show s.length = s.toList.length from rfl, h]
  rw [if_pos ⟨hab, by omega⟩, h]

/-- An unrecognised table name makes `route_query` fail with an
unknown-table error. -/
theorem c7_unknown_table_core (f : QualFilters) (base : String)
    (h1 : f.table_name ≠ "renewable_energy_timeseries")
    (h2 : f.table_name ≠ "electricity_market_prices")
    (h3 : f.table_name ≠ "redispatch_events")
    (h4 : f.table_name ≠ "grid_status_timeseries") :
    ∃ e, route_query f base = some (.error e) ∧ unknownErrorShape e := by
  unfold route_query
  split <;> simp_all
  exact ⟨f.table_name, Or.inr (Or.inr (Or.inr rfl))⟩

/-- An unknown product filter on the renewable table fails with an
unknown-value error once the date range validates. -/
theorem c7_unknown_product_core (f : QualFilters) (base : String) (v : String)
    (htn : f.table_name = "renewable_energy_timeseries")
    (hpt : f.product_type = some v)
    (hv : validate_date_range (extract_date_range f.timestamp_range).start
      (extract_date_range f.timestamp_range).endDate = .ok ())
    (h1 : v ≠ "solar") (h2 : v ≠ "wind_onshore") (h3 : v ≠ "wind_offshore") :
    ∃ e, route_query f base = some (.error e) ∧ unknownErrorShape e := by
  rw [route_query_renewable f base htn]
  unfold route_renewable
  dsimp only
  rw [hv, hpt]
  dsimp only
  cases hdc : f.data_category with
  | some c =>
    dsimp only
    rw [show pairsOf [v] [c] = [(v, c)] from by simp [pairsOf]]
    unfold renewableLoop renewableCombo
    rw [map_product_to_api_unknown v c h1 h2 h3]
    exact ⟨_, rfl, ⟨v, Or.inl rfl⟩⟩
  | none =>
    dsimp only
    rw [show pairsOf [v] ["forecast", "extrapolation", "online_actual"] =
      [(v, "forecast"), (v, "extrapolation"), (v, "online_actual")] from by simp [pairsOf]]
    unfold renewableLoop renewableCombo
    rw [map_product_to_api_unknown v "forecast" h1 h2 h3]
    exact ⟨_, rfl, ⟨v, Or.inl rfl⟩⟩

/-- An unknown data-category filter on the renewable table fails with an
unknown-value error once the date range validates. -/
theorem c7_unknown_category_core (f : QualFilters) (base : String) (c : String)
    (htn : f.table_name = "renewable_energy_timeseries")
    (hdc : f.data_category = some c)
    (hv : validate_date_range (extract_date_range f.timestamp_range).start
      (extract_date_range f.timestamp_range).endDate = .ok ())
    (h1 : c ≠ "forecast") (h2 : c ≠ "extrapolation") (h3 : c ≠ "online_actual") :
    ∃ e, route_query f base = some (.error e) ∧ unknownErrorShape e := by
  rw [route_query_renewable f base htn]
  unfold route_renewable
  dsimp only
  rw [hv, hdc]
  dsimp only
  cases hpt : f.product_type with
  | some p =>
    dsimp only
    rw [show pairsOf [p] [c] = [(p, c)] from by simp [pairsOf]]
    obtain ⟨e, he, hshape⟩ := renewableCombo_unknown_category
      (extract_date_range f.timestamp_range) base p c h1 h2 h3
    unfold renewableLoop
    rw [he]
    exact ⟨e, rfl, hshape⟩
  | none =>
    dsimp only
    rw [show pairsOf ["solar", "wind_onshore", "wind_offshore"] [c] =
      [("solar", c), ("wind_onshore", c), ("wind_offshore", c)] from by simp [pairsOf]]
    obtain ⟨e, he, hshape⟩ := renewableCombo_unknown_category
      (extract_date_range f.timestamp_range) base "solar" c h1 h2 h3
    unfold renewableLoop
    rw [he]
    exact ⟨e, rfl, hshape⟩

/-- An unknown price-type filter on the prices table fails with an
unknown-value error once the date range validates. -/
theorem c7_unknown_price_core (f : QualFilters) (base : String) (v : String)
    (htn : f.table_name = "electricity_market_prices")
    (hpt : f.price_type = some v)
    (hv : validate_date_range (extract_date_range f.timestamp_range).start
      (extract_date_range f.timestamp_range).endDate = .ok ())
    (h1 : v ≠ "spot_market") (h2 : v ≠ "market_premium")
    (h3 : v ≠ "annual_market_value") (h4 : v ≠ "negative_flag") :
    ∃ e, route_query f base = some (.error e) ∧ unknownErrorShape e := by
  rw [route_query_prices f base htn]
  unfold route_prices
  dsimp only
  rw [hv, hpt]
  dsimp only
  rw [map_price_type_to_endpoint_unknown v h1 h2 h3 h4]
  exact ⟨_, rfl, ⟨v, Or.inr (Or.inr (Or.inl rfl))⟩⟩

/-- `validate_date_range` succeeds exactly when both dates parse and are
in chronological order. -/
theorem validate_date_range_ok_iff (a b : String) :
    validate_date_range a b = .ok () ↔
      ∃ da db, parseYmd a = some da ∧ parseYmd b = some db ∧ ymdLe da db = true := by
  unfold validate_date_range
  cases ha : parseYmd a with
  | none => simp
  | some da =>
    cases hb : parseYmd b with
    | none => simp
    | some db =>
      dsimp only
      by_cases hle : ymdLe da db = true
      · simp [hle]
      · rw [if_pos (by simp_all)]
        simp [hle]

/-- Every `validate_date_range` failure is the HTTP-400 date error. -/
theorem validate_date_range_error_kind (a b : String) (e : NtpFdwError)
    (h : validate_date_range a b = .error e) :
    ∃ msg, e = .api (.httpError 400 msg) := by
  unfold validate_date_range at h
  cases ha : parseYmd a with
  | none => rw [ha] at h; cases h; exact ⟨_, rfl⟩
  | some da =>
    rw [ha] at h
    cases hb : parseYmd b with
    | none => rw [hb] at h; cases h; exact ⟨_, rfl⟩
    | some db =>
      rw [hb] at h
      dsimp only at h
      split at h
      · cases h; exact ⟨_, rfl⟩
      · cases h

/-- A failing date validation aborts renewable routing with that error. -/
theorem route_renewable_propagates_invalid_range (f : QualFilters)
    (base : String) (e : NtpFdwError)
    (h : validate_date_range (extract_date_range f.timestamp_range).start
      (extract_date_range f.timestamp_range).endDate = .error e) :
    route_renewable f base = some (.error e) := by
  unfold route_renewable
  dsimp only
  rw [h]

/-! ## Claim theorems -/

/-- C1 (amended): for a qualifier set extracting both a start and an end
calendar date with `start ≠ end`, the resolved range gets
`end = nominal_end + 1 day` exactly when at least one full-precision
timestamp bound was recorded during extraction — which happens whenever a
timestamp literal parses to an instant, including plain `YYYY-MM-DD` date
literals — and uses `start`/`end` unchanged exactly when no bound was
recorded (every timestamp literal failed instant parsing). -/
theorem c1_end_adjustment_tracks_bounds_presence
    (quals : List Qual) (t : String) (acc : QualAccum) (s e : String)
    (f : QualFilters) (h1 : extractQuals quals = .ok acc)
    (hs : acc.timestamp_start = some s) (he : acc.timestamp_end = some e)
    (hne : s ≠ e) (h2 : parse_quals quals t = .ok f) :
    ((acc.ts_bound_start.isSome || acc.ts_bound_end.isSome) = true →
      ∃ d, parseYmd e = some d ∧
        f.timestamp_range = some ⟨s, formatYmd (civilFromDays (daysFromCivil d + 1))⟩) ∧
    ((acc.ts_bound_start.isSome || acc.ts_bound_end.isSome) = false →
      f.timestamp_range = some ⟨s, e⟩) := by
  obtain ⟨hb, -⟩ := parse_quals_ok_pieces h1 h2
  unfold buildTimestampRange at hb
  rw [hs, he] at hb
  dsimp only at hb
  rw [if_neg hne] at hb
  constructor
  · intro hbs
    rw [hbs] at hb
    rw [if_pos rfl] at hb
    cases ha : add_days_to_date e 1 with
    | error e2 => rw [ha] at hb; cases hb
    | ok e1 =>
      rw [ha] at hb
      simp only [Except.ok.injEq] at hb
      obtain ⟨d, hd, he1⟩ := add_days_to_date_ok ha
      exact ⟨d, hd, by rw [← hb, he1]⟩
  · intro hbs
    rw [hbs] at hb
    simp only [Bool.false_eq_true, if_false, Except.ok.injEq] at hb
    exact hb.symm

/-- C1 counterexample: the qualifier set
`ts >= '2024-10-20' AND ts < '2024-10-25'` is a pure calendar-day range —
no literal carries any time-of-day component — with `start ≠ end`, yet the
resolved range ends at 2024-10-26, not at the nominal end 2024-10-25: the
code keys the adjustment on the presence of parsed timestamp bounds, and
date-only literals also produce bounds. -/
theorem c1_counterexample :
    (parse_quals [⟨"timestamp_utc", ">=", .stringVal "2024-10-20"⟩,
        ⟨"timestamp_utc", "<", .stringVal "2024-10-25"⟩]
        "renewable_energy_timeseries").map (fun f => f.timestamp_range) =
      .ok (some ⟨"2024-10-20", "2024-10-26"⟩) ∧
    ("2024-10-26" : String) ≠ "2024-10-25" :=
  ⟨by decide, by decide⟩

/-- C1 witness: a genuine time-of-day query across two days is adjusted to
fetch through the day after the nominal end. -/
theorem c1_witness :
    ∃ d, parseYmd "2024-10-21" = some d ∧
      (⟨none, none, none, some ⟨"2024-10-20", "2024-10-22"⟩,
        some ⟨some 1729418400000000, some ">=", some 1729472400000000, some "<"⟩,
        "renewable_energy_timeseries"⟩ : QualFilters).timestamp_range =
        some ⟨"2024-10-20", formatYmd (civilFromDays (daysFromCivil d + 1))⟩ :=
  (c1_end_adjustment_tracks_bounds_presence
    [⟨"timestamp_utc", ">=", .stringVal "2024-10-20T10:00:00Z"⟩,
     ⟨"timestamp_utc", "<", .stringVal "2024-10-21T01:00:00Z"⟩]
    "renewable_energy_timeseries"
    ⟨none, none, none, some "2024-10-20", some "2024-10-21",
      some 1729418400000000, some ">=", some 1729472400000000, some "<"⟩
    "2024-10-20" "2024-10-21"
    ⟨none, none, none, some ⟨"2024-10-20", "2024-10-22"⟩,
      some ⟨some 1729418400000000, some ">=", some 1729472400000000, some "<"⟩,
      "renewable_energy_timeseries"⟩
    (by decide) (by decide) (by decide) (by decide) (by decide)).1 (by decide)

/-- C2: whenever extraction yields equal start and end calendar dates, the
resolved range is `[start, start + 1 day)`; in particular the filters
`{data_category = "A", ts >= 2024-10-20, ts < 2024-10-20}` resolve to the
range `[2024-10-20, 2024-10-21)`. -/
theorem c2_single_day_range_plus_one :
    (∀ (quals : List Qual) (t : String) (acc : QualAccum) (s : String)
        (f : QualFilters),
      extractQuals quals = .ok acc →
      acc.timestamp_start = some s → acc.timestamp_end = some s →
      parse_quals quals t = .ok f →
      ∃ d, parseYmd s = some d ∧
        f.timestamp_range = some ⟨s, formatYmd (civilFromDays (daysFromCivil d + 1))⟩) ∧
    (parse_quals [⟨"data_category", "=", .stringVal "A"⟩,
        ⟨"timestamp_utc", ">=", .stringVal "2024-10-20"⟩,
        ⟨"timestamp_utc", "<", .stringVal "2024-10-20"⟩]
        "renewable_energy_timeseries").map
      (fun f => (f.data_category, f.timestamp_range)) =
      .ok (some "A", some ⟨"2024-10-20", "2024-10-21"⟩) := by
  constructor
  · intro quals t acc s f h1 hs he h2
    obtain ⟨hb, -⟩ := parse_quals_ok_pieces h1 h2
    unfold buildTimestampRange at hb
    rw [hs, he] at hb
    dsimp only at hb
    rw [if_pos rfl] at hb
    cases ha : add_days_to_date s 1 with
    | error e => rw [ha] at hb; cases hb
    | ok e1 =>
      rw [ha] at hb
      simp only [Except.ok.injEq] at hb
      obtain ⟨d, hd, he1⟩ := add_days_to_date_ok ha
      exact ⟨d, hd, by rw [← hb, he1]⟩
  · decide

/-- C2 witness: the single-day scenario instantiated. -/
theorem c2_witness :
    ∃ d, parseYmd "2024-10-20" = some d ∧
      (⟨none, some "A", none, some ⟨"2024-10-20", "2024-10-21"⟩,
        some ⟨some 1729382400000000, some ">=", some 1729382400000000, some "<"⟩,
        "renewable_energy_timeseries"⟩ : QualFilters).timestamp_range =
        some ⟨"2024-10-20", formatYmd (civilFromDays (daysFromCivil d + 1))⟩ :=
  c2_single_day_range_plus_one.1
    [⟨"data_category", "=", .stringVal "A"⟩,
     ⟨"timestamp_utc", ">=", .stringVal "2024-10-20"⟩,
     ⟨"timestamp_utc", "<", .stringVal "2024-10-20"⟩]
    "renewable_energy_timeseries"
    ⟨none, some "A", none, some "2024-10-20", some "2024-10-20",
      some 1729382400000000, some ">=", some 1729382400000000, some "<"⟩
    "2024-10-20"
    ⟨none, some "A", none, some ⟨"2024-10-20", "2024-10-21"⟩,
      some ⟨some 1729382400000000, some ">=", some 1729382400000000, some "<"⟩,
      "renewable_energy_timeseries"⟩
    (by decide) (by decide) (by decide) (by decide)

/-- C3: `filter_rows` with no bounds is the identity; with bounds it keeps
exactly the rows — in their original order — whose timestamp parses to an
instant satisfying every present bound under its recorded operator, and
every row whose timestamp fails to parse is dropped rather than raising an
error. -/
theorem c3_filter_rows_semantics :
    (∀ rows : List RenewableRow, filter_renewable_rows rows none = rows) ∧
    (∀ (rows : List RenewableRow) (b : TimestampBounds),
      (filter_renewable_rows rows (some b)).Sublist rows) ∧
    (∀ (rows : List RenewableRow) (b : TimestampBounds) (r : RenewableRow),
      r ∈ filter_renewable_rows rows (some b) ↔
        r ∈ rows ∧ ∃ t, parseRfc3339Micros r.timestamp_utc = some t ∧ boundsHold b t) ∧
    (∀ (rows : List RenewableRow) (b : TimestampBounds) (r : RenewableRow),
      parseRfc3339Micros r.timestamp_utc = none →
        r ∉ filter_renewable_rows rows (some b)) := by
  have hmem : ∀ (rows : List RenewableRow) (b : TimestampBounds) (r : RenewableRow),
      r ∈ filter_renewable_rows rows (some b) ↔
        r ∈ rows ∧ ∃ t, parseRfc3339Micros r.timestamp_utc = some t ∧ boundsHold b t := by
    intro rows b r
    unfold filter_renewable_rows
    rw [List.mem_filter, matches_timestamp_bounds_iff]
  refine ⟨fun rows => rfl, ?_, hmem, ?_⟩
  · intro rows b
    unfold filter_renewable_rows
    exact List.filter_sublist rows
  · intro rows b r hp hin
    obtain ⟨-, t, ht, -⟩ := (hmem rows b r).mp hin
    rw [hp] at ht
    cases ht

/-- C3 witness: a row with an unparseable timestamp is dropped even by
empty bounds. -/
theorem c3_witness :
    (⟨"not-a-timestamp", "", 15, "solar", "forecast",
      none, none, none, none, ""⟩ : RenewableRow) ∉
      filter_renewable_rows
        [⟨"not-a-timestamp", "", 15, "solar", "forecast",
          none, none, none, none, ""⟩]
        (some ⟨none, none, none, none⟩) :=
  c3_filter_rows_semantics.2.2.2
    [⟨"not-a-timestamp", "", 15, "solar", "forecast", none, none, none, none, ""⟩]
    ⟨none, none, none, none⟩
    ⟨"not-a-timestamp", "", 15, "solar", "forecast", none, none, none, none, ""⟩
    (by decide)

/-- C4: with neither product_type nor data_category constrained, the
renewable router enumerates the 3 × 3 Cartesian product of known values in
declaration order, the two combinations mapping to zero endpoints
(wind_offshore with forecast or extrapolation) are dropped without error,
and exactly 7 fetch plans are produced, in declaration order, all carrying
the resolved date window. -/
theorem c4_seven_plans_in_declaration_order :
    pairsOf ["solar", "wind_onshore", "wind_offshore"]
        ["forecast", "extrapolation", "online_actual"] =
      [("solar", "forecast"), ("solar", "extrapolation"), ("solar", "online_actual"),
       ("wind_onshore", "forecast"), ("wind_onshore", "extrapolation"),
       ("wind_onshore", "online_actual"), ("wind_offshore", "forecast"),
       ("wind_offshore", "extrapolation"), ("wind_offshore", "online_actual")] ∧
    (map_product_to_api "wind_offshore" "forecast" = .ok [] ∧
     map_product_to_api "wind_offshore" "extrapolation" = .ok []) ∧
    ∀ (f : QualFilters) (base : String) (r : DateRange),
      f.product_type = none → f.data_category = none →
      f.timestamp_range = some r →
      validate_date_range r.start r.endDate = .ok () →
      ∃ plans, route_renewable f base = some (.ok plans) ∧
        plans.map (fun p => (p.endpoint, p.product)) =
          [("prognose", some "Solar"), ("hochrechnung", some "Solar"),
           ("onlinehochrechnung", some "Solar"), ("prognose", some "Wind"),
           ("hochrechnung", some "Wind"), ("onlinehochrechnung", some "Windonshore"),
           ("onlinehochrechnung", some "Windoffshore")] ∧
        plans.map (fun p => (p.date_from, p.date_to)) =
          List.replicate 7 (r.start, r.endDate) := by
  refine ⟨by decide, ⟨rfl, rfl⟩, ?_⟩
  intro f base r hpt hdc htr hv
  unfold route_renewable extract_date_range
  rw [htr, hpt, hdc]
  dsimp only
  rw [hv]
  dsimp only
  refine ⟨_, rfl, ?_, ?_⟩ <;>
    simp [pairsOf, renewableLoop, renewableCombo, map_product_to_api,
      map_category_to_endpoint, build_api_url, List.mapM, List.replicate]

/-- C4 witness: the expansion at a concrete valid date range. -/
theorem c4_witness :
    ∃ plans, route_renewable
        ⟨none, none, none, some ⟨"2024-10-24", "2024-10-25"⟩, none,
          "renewable_energy_timeseries"⟩ "https://api.example.com" =
        some (.ok plans) ∧
      plans.map (fun p => (p.endpoint, p.product)) =
        [("prognose", some "Solar"), ("hochrechnung", some "Solar"),
         ("onlinehochrechnung", some "Solar"), ("prognose", some "Wind"),
         ("hochrechnung", some "Wind"), ("onlinehochrechnung", some "Windonshore"),
         ("onlinehochrechnung", some "Windoffshore")] ∧
      plans.map (fun p => (p.date_from, p.date_to)) =
        List.replicate 7 ("2024-10-24", "2024-10-25") :=
  c4_seven_plans_in_declaration_order.2.2
    ⟨none, none, none, some ⟨"2024-10-24", "2024-10-25"⟩, none,
      "renewable_energy_timeseries"⟩
    "https://api.example.com" ⟨"2024-10-24", "2024-10-25"⟩
    rfl rfl rfl (by decide)

/-- C5: with only a lower timestamp bound the resolved range is
`[lower, lower + 7 days)`, and with only an upper bound it is
`[upper - 7 days, upper)`; in both cases the window spans exactly 7
calendar days of the date model. -/
theorem c5_seven_day_default_window
    (quals : List Qual) (t : String) (acc : QualAccum) (s : String)
    (f : QualFilters) (h1 : extractQuals quals = .ok acc)
    (h2 : parse_quals quals t = .ok f) :
    (acc.timestamp_start = some s → acc.timestamp_end = none →
      ∃ d, parseYmd s = some d ∧
        f.timestamp_range = some ⟨s, formatYmd (civilFromDays (daysFromCivil d + 7))⟩) ∧
    (acc.timestamp_start = none → acc.timestamp_end = some s →
      ∃ d, parseYmd s = some d ∧
        f.timestamp_range = some ⟨formatYmd (civilFromDays (daysFromCivil d - 7)), s⟩) := by
  obtain ⟨hb, -⟩ := parse_quals_ok_pieces h1 h2
  constructor
  · intro hs he
    unfold buildTimestampRange at hb
    rw [hs, he] at hb
    dsimp only at hb
    cases ha : add_days_to_date s 7 with
    | error e2 => rw [ha] at hb; cases hb
    | ok e1 =>
      rw [ha] at hb
      simp only [Except.ok.injEq] at hb
      obtain ⟨d, hd, he1⟩ := add_days_to_date_ok ha
      exact ⟨d, hd, by rw [← hb, he1]⟩
  · intro hs he
    unfold buildTimestampRange at hb
    rw [hs, he] at hb
    dsimp only at hb
    cases ha : add_days_to_date s (-7) with
    | error e2 => rw [ha] at hb; cases hb
    | ok e1 =>
      rw [ha] at hb
      simp only [Except.ok.injEq] at hb
      obtain ⟨d, hd, he1⟩ := add_days_to_date_ok ha
      refine ⟨d, hd, ?_⟩
      rw [← hb, he1]
      have hsub : daysFromCivil d + (-7) = daysFromCivil d - 7 := by ring
      rw [hsub]

/-- C5 witness: a lower-bound-only qualifier set resolves to the 7-day
window starting at the bound. -/
theorem c5_witness :
    ∃ d, parseYmd "2024-10-24" = some d ∧
      (⟨none, none, none, some ⟨"2024-10-24", "2024-10-31"⟩,
        some ⟨some 1729728000000000, some ">=", none, none⟩,
        "renewable_energy_timeseries"⟩ : QualFilters).timestamp_range =
        some ⟨"2024-10-24", formatYmd (civilFromDays (daysFromCivil d + 7))⟩ :=
  (c5_seven_day_default_window
    [⟨"timestamp_utc", ">=", .stringVal "2024-10-24"⟩]
    "renewable_energy_timeseries"
    ⟨none, none, none, some "2024-10-24", none,
      some 1729728000000000, some ">=", none, none⟩
    "2024-10-24"
    ⟨none, none, none, some ⟨"2024-10-24", "2024-10-31"⟩,
      some ⟨some 1729728000000000, some ">=", none, none⟩,
      "renewable_energy_timeseries"⟩
    (by decide) (by decide)).1 rfl rfl

/-- C6 counterexample: the malformed timestamp literal `'garbage'` (with a
valid end bound alongside) does not make the extractor fail — `parse_quals`
returns Ok, silently carrying the malformed literal as the raw start of the
date range and ignoring it as a timestamp bound. -/
theorem c6_counterexample :
    parse_quals [⟨"timestamp_utc", ">=", .stringVal "garbage"⟩,
        ⟨"timestamp_utc", "<", .stringVal "2024-10-25"⟩]
      "renewable_energy_timeseries" =
      .ok ⟨none, none, none, some ⟨"garbage", "2024-10-26"⟩,
        some ⟨none, none, some 1729814400000000, some "<"⟩,
        "renewable_energy_timeseries"⟩ := by
  decide

/-- C6 (amended): the qualifier loop itself fails exactly on a
`Timestamptz` value outside `chrono`'s range — a malformed *string*
literal never fails the loop (it merely contributes no timestamp bound and
is carried as its raw date component) — and the only other `parse_quals`
error source is the final date-range resolution applying date arithmetic
to an extracted endpoint string that does not parse as a date.  Whether a
malformed string literal ends up reported therefore depends on whether the
resolution touches it: `ts >= '2024-10-20' AND ts < 'garbage'` does error
(the parsed start bound forces the end-date adjustment onto the
unparseable end), while the mirrored counterexample set is accepted. -/
theorem c6_extractor_error_sources :
    (∀ quals : List Qual, (extractQuals quals).isOk = false ↔
      ∃ q ∈ quals, badTimestamptz q) ∧
    (∀ acc : QualAccum, (buildTimestampRange acc).isOk = false →
      ∃ s, (acc.timestamp_start = some s ∨ acc.timestamp_end = some s) ∧
        parseYmd s = none) ∧
    (parse_quals [⟨"timestamp_utc", ">=", .stringVal "2024-10-20"⟩,
        ⟨"timestamp_utc", "<", .stringVal "garbage"⟩]
      "renewable_energy_timeseries").isOk = false :=
  ⟨fun quals => extractQualsFrom_error_iff quals {}, buildTimestampRange_error,
   by decide⟩

/-- C6 witness: a lone malformed literal surfaces as a date-arithmetic
failure on an unparseable endpoint string. -/
theorem c6_witness :
    ∃ s, ((⟨none, none, none, some "garbage", none, none, none, none, none⟩ :
        QualAccum).timestamp_start = some s ∨
      (⟨none, none, none, some "garbage", none, none, none, none, none⟩ :
        QualAccum).timestamp_end = some s) ∧ parseYmd s = none :=
  c6_extractor_error_sources.2.1
    ⟨none, none, none, some "garbage", none, none, none, none, none⟩
    (by decide)

/-- C7 counterexample: an unknown product value combined with an invalid
date range yields the InvalidDateRange error, not an
UnknownCategory/UnknownValue error — date validation runs first. -/
theorem c7_counterexample :
    route_query ⟨some "coal", none, none, some ⟨"2024-10-25", "2024-10-24"⟩,
        none, "renewable_energy_timeseries"⟩ "b" =
      some (.error (.api (.httpError 400
        "Invalid date range: date_from (2024-10-25) must be <= date_to (2024-10-24)"))) ∧
    ¬ unknownErrorShape (.api (.httpError 400
      "Invalid date range: date_from (2024-10-25) must be <= date_to (2024-10-24)")) :=
  ⟨by decide, by rintro ⟨s, h | h | h | h⟩ <;> cases h⟩

/-- C7 (amended): an unrecognised table name always fails planning with an
unknown-value error; an equality filter naming a value outside the known
set of its dimension (product_type or data_category on the renewable table,
price_type on the prices table) fails with an UnknownCategory/UnknownValue
error provided the resolved date range passes the validation that runs
first; in every such case no fetch plans are produced. -/
theorem c7_unknown_values_error :
    (∀ (f : QualFilters) (base : String),
      f.table_name ≠ "renewable_energy_timeseries" →
      f.table_name ≠ "electricity_market_prices" →
      f.table_name ≠ "redispatch_events" →
      f.table_name ≠ "grid_status_timeseries" →
      ∃ e, route_query f base = some (.error e) ∧ unknownErrorShape e) ∧
    (∀ (f : QualFilters) (base v : String),
      f.table_name = "renewable_energy_timeseries" →
      f.product_type = some v →
      validate_date_range (extract_date_range f.timestamp_range).start
        (extract_date_range f.timestamp_range).endDate = .ok () →
      v ≠ "solar" → v ≠ "wind_onshore" → v ≠ "wind_offshore" →
      ∃ e, route_query f base = some (.error e) ∧ unknownErrorShape e) ∧
    (∀ (f : QualFilters) (base c : String),
      f.table_name = "renewable_energy_timeseries" →
      f.data_category = some c →
      validate_date_range (extract_date_range f.timestamp_range).start
        (extract_date_range f.timestamp_range).endDate = .ok () →
      c ≠ "forecast" → c ≠ "extrapolation" → c ≠ "online_actual" →
      ∃ e, route_query f base = some (.error e) ∧ unknownErrorShape e) ∧
    (∀ (f : QualFilters) (base v : String),
      f.table_name = "electricity_market_prices" →
      f.price_type = some v →
      validate_date_range (extract_date_range f.timestamp_range).start
        (extract_date_range f.timestamp_range).endDate = .ok () →
      v ≠ "spot_market" → v ≠ "market_premium" → v ≠ "annual_market_value" →
      v ≠ "negative_flag" →
      ∃ e, route_query f base = some (.error e) ∧ unknownErrorShape e) :=
  ⟨c7_unknown_table_core,
   fun f base v htn hpt hv h1 h2 h3 =>
     c7_unknown_product_core f base v htn hpt hv h1 h2 h3,
   fun f base c htn hdc hv h1 h2 h3 =>
     c7_unknown_category_core f base c htn hdc hv h1 h2 h3,
   fun f base v htn hpt hv h1 h2 h3 h4 =>
     c7_unknown_price_core f base v htn hpt hv h1 h2 h3 h4⟩

/-- C7 witness: an unrecognised table name produces an unknown-table error
and no plans. -/
theorem c7_witness :
    ∃ e, route_query ⟨none, none, none, none, none, "bogus_table"⟩ "b" =
      some (.error e) ∧ unknownErrorShape e :=
  c7_unknown_values_error.1 ⟨none, none, none, none, none, "bogus_table"⟩ "b"
    (by decide) (by decide) (by decide) (by decide)

/-- C8: date-range validation accepts exactly the pairs of parseable
`YYYY-MM-DD` strings in chronological order — so it rejects exactly when a
date fails to parse or `start > end` — every rejection is the HTTP-400
InvalidDateRange error, a same-day range is accepted, and a failing
validation aborts routing with that error, producing no plans. -/
theorem c8_date_range_validation_spec :
    (∀ a b : String, validate_date_range a b = .ok () ↔
      ∃ da db, parseYmd a = some da ∧ parseYmd b = some db ∧ ymdLe da db = true) ∧
    (∀ (a b : String) (e : NtpFdwError), validate_date_range a b = .error e →
      ∃ msg, e = .api (.httpError 400 msg)) ∧
    (∀ (a : String) (da : Ymd), parseYmd a = some da →
      validate_date_range a a = .ok ()) ∧
    (∀ (f : QualFilters) (base : String) (e : NtpFdwError),
      validate_date_range (extract_date_range f.timestamp_range).start
        (extract_date_range f.timestamp_range).endDate = .error e →
      route_renewable f base = some (.error e)) := by
  refine ⟨validate_date_range_ok_iff, validate_date_range_error_kind, ?_,
    route_renewable_propagates_invalid_range⟩
  intro a da hp
  exact (validate_date_range_ok_iff a a).mpr ⟨da, da, hp, hp, ymdLe_refl da⟩

/-- C8 witness: a same-day range is accepted. -/
theorem c8_witness : validate_date_range "2024-10-24" "2024-10-24" = .ok () :=
  c8_date_range_validation_spec.2.2.1 "2024-10-24" ⟨2024, 10, 24⟩ (by decide)

/-- C9: request-target construction has exactly three shapes selected by
the endpoint identity: for `Jahresmarktpraemie` the target encodes only the
year field of `date_from`; for `marktpraemie` it encodes the month and year
fields of `date_from` and `date_to`; for every other endpoint it encodes
the literal day range, prefixed with the product parameter when one is
present.  Dates are taken in canonical 10-character `YYYY-MM-DD` form,
given by their character lists. -/
theorem c9_build_api_url_three_shapes
    (base : String) (product : Option String) (df dt : String)
    (a1 a2 a3 a4 b1 b2 c1 c2 e1 e2 e3 e4 f1 f2 g1 g2 : Char)
    (hdf : df.toList = [a1, a2, a3, a4, '-', b1, b2, '-', c1, c2])
    (hdt : dt.toList = [e1, e2, e3, e4, '-', f1, f2, '-', g1, g2]) :
    build_api_url base "Jahresmarktpraemie" product df dt =
      some (trimEndSlashes base ++ "/" ++ "Jahresmarktpraemie" ++ "/" ++
        ⟨[a1, a2, a3, a4]⟩) ∧
    build_api_url base "marktpraemie" product df dt =
      some (trimEndSlashes base ++ "/" ++ "marktpraemie" ++ "/" ++ ⟨[b1, b2]⟩ ++ "/" ++
        ⟨[a1, a2, a3, a4]⟩ ++ "/" ++ ⟨[f1, f2]⟩ ++ "/" ++ ⟨[e1, e2, e3, e4]⟩) ∧
    (∀ endpoint p, endpoint ≠ "Jahresmarktpraemie" → endpoint ≠ "marktpraemie" →
      product = some p →
      build_api_url base endpoint product df dt =
        some (trimEndSlashes base ++ "/" ++ endpoint ++ "/" ++ p ++ "/" ++
          df ++ "/" ++ dt)) ∧
    (∀ endpoint, endpoint ≠ "Jahresmarktpraemie" → endpoint ≠ "marktpraemie" →
      product = none →
      build_api_url base endpoint product df dt =
        some (trimEndSlashes base ++ "/" ++ endpoint ++ "/" ++ df ++ "/" ++ dt)) := by
  have h04 : rustSlice df 0 4 = some ⟨[a1, a2, a3, a4]⟩ := by
    rw [rustSlice_of_toList hdf 0 4 (by omega) (by simp)]
    rfl
  have h57 : rustSlice df 5 7 = some ⟨[b1, b2]⟩ := by
    rw [rustSlice_of_toList hdf 5 7 (by omega) (by simp)]
    rfl
  have h04t : rustSlice dt 0 4 = some ⟨[e1, e2, e3, e4]⟩ := by
    rw [rustSlice_of_toList hdt 0 4 (by omega) (by simp)]
    rfl
  have h57t : rustSlice dt 5 7 = some ⟨[f1, f2]⟩ := by
    rw [rustSlice_of_toList hdt 5 7 (by omega) (by simp)]
    rfl
  refine ⟨?_, ?_, ?_, ?_⟩
  · unfold build_api_url
    rw [if_pos rfl, h04]
  · unfold build_api_url
    rw [if_neg (by decide), if_pos rfl, h57, h04, h57t, h04t]
  · intro endpoint p hne1 hne2 hp
    subst hp
    unfold build_api_url
    rw [if_neg hne1, if_neg hne2]
  · intro endpoint hne1 hne2 hp
    subst hp
    unfold build_api_url
    rw [if_neg hne1, if_neg hne2]

/-- C9 witness: the year-only shape at a concrete canonical date pair. -/
theorem c9_witness :
    build_api_url "https://x/api" "Jahresmarktpraemie" none
        "2024-01-01" "2024-03-31" =
      some (trimEndSlashes "https://x/api" ++ "/" ++ "Jahresmarktpraemie" ++ "/" ++
        ⟨['2', '0', '2', '4']⟩) :=
  (c9_build_api_url_three_shapes "https://x/api" none "2024-01-01" "2024-03-31"
    '2' '0' '2' '4' '0' '1' '0' '1' '2' '0' '2' '4' '0' '3' '3' '1'
    (by decide) (by decide)).1

/-- C10: for canonical 10-character date strings `build_api_url` always
returns a string — the byte slicing for the two special endpoints stays in
bounds — while `validate_date_range` also accepts non-canonical dates
shorter than 10 characters (chrono parses non-zero-padded components), on
which the `marktpraemie` slicing panics: totality holds only under the
canonical-form precondition. -/
theorem c10_totality_under_canonical_dates :
    (∀ (base endpoint : String) (product : Option String) (df dt : String),
      df.length = 10 → dt.length = 10 →
      (build_api_url base endpoint product df dt).isSome = true) ∧
    validate_date_range "24-1-1" "24-1-1" = .ok () ∧
    build_api_url "b" "marktpraemie" none "24-1-1" "24-1-1" = none := by
  refine ⟨?_, by decide, by decide⟩
  intro base endpoint product df dt h1 h2
  unfold build_api_url rustSlice
  split
  · rw [if_pos (by omega)]
    rfl
  · split
    · rw [if_pos (by omega), if_pos (by omega), if_pos (by omega), if_pos (by omega)]
      rfl
    · cases product <;> rfl

/-- C10 witness: totality at a concrete canonical input. -/
theorem c10_witness :
    (build_api_url "b" "marktpraemie" none "2024-10-24" "2024-10-25").isSome = true :=
  c10_totality_under_canonical_dates.1 "b" "marktpraemie" none
    "2024-10-24" "2024-10-25" (by decide) (by decide)
